import Mathlib

/-!
Shallow embedding of the New Relic Terraform provider sources:
the synthetics private location resource
(`newrelic/resource_newrelic_synthetics_private_location.go`),
the data partition rule acceptance-test helpers
(`newrelic/resource_newrelic_data_partition_test.go`),
and the request authorizers of the HTTP client package.
Go errors are modelled as their message strings, fallible calls as
`Except`, and the pieces of the Terraform SDK the code touches
(`schema.ResourceData`, `diag.Diagnostics`, the pass-through importer)
as explicit records and pure functions.
-/

/-- Severity of a Terraform diagnostic (`diag.Severity`). -/
inductive Severity
  | Error
  | Warning
  deriving DecidableEq, Repr

/-- A Terraform diagnostic (`diag.Diagnostic`): severity and summary. -/
structure Diagnostic where
  Severity : Severity
  Summary : String
  deriving DecidableEq, Repr

/-- The diagnostics value returned by resource handlers (`diag.Diagnostics`). -/
abbrev Diagnostics := List Diagnostic

/-- Terraform SDK helper `diag.FromErr`: wraps a Go error (its message) into a
one-element Error-severity diagnostics value. -/
def diag.FromErr (e : String) : Diagnostics :=
  [{ Severity := Severity.Error, Summary := e }]

/-- The state record (`schema.ResourceData`) of the synthetics private location
resource: its ID plus the eight schema attributes. -/
structure ResourceData where
  id : String
  account_id : Int
  description : String
  name : String
  verified_script_execution : Bool
  domain_id : String
  guid : String
  key : String
  location_id : String
  deriving DecidableEq, Repr

/-- An error entry of a synthetics mutation response (`SyntheticsPrivateLocationMutationError`). -/
structure SyntheticsError where
  Description : String
  deriving DecidableEq, Repr

/-- The response of `SyntheticsCreatePrivateLocation` /
`SyntheticsUpdatePrivateLocation`: error list, GUID and identifiers. -/
structure PrivateLocationMutationResult where
  Errors : List SyntheticsError
  GUID : String
  DomainId : String
  Key : String
  LocationId : String
  deriving DecidableEq, Repr

/-- The response of `SyntheticsDeletePrivateLocation`: just an error list. -/
structure PrivateLocationDeleteResult where
  Errors : List SyntheticsError
  deriving DecidableEq, Repr

/-- The synthetics API client surface used by the resource, each call either a
Go error (message) or a response. -/
structure SyntheticsClient where
  SyntheticsCreatePrivateLocation :
    Int → String → String → Bool → Except String PrivateLocationMutationResult
  SyntheticsUpdatePrivateLocation :
    String → String → Bool → Except String PrivateLocationMutationResult
  SyntheticsDeletePrivateLocation :
    String → Except String (Option PrivateLocationDeleteResult)

/-- An error from `client.Entities.GetEntity`: either `*errors.NotFound` or any
other Go error (its message). -/
inductive GoReadError
  | NotFound
  | Other (msg : String)
  deriving DecidableEq, Repr

/-- The entity returned by `GetEntity` (`entities.EntityInterface`): the read
code handles the `*entities.GenericEntityOutline` case and ignores the rest. -/
inductive EntityInterface
  | GenericEntityOutline (GUID : String) (Name : String)
  | OtherEntity
  deriving DecidableEq, Repr

/-- Create handler `resourceNewRelicSyntheticsPrivateLocationCreate`: reads
description, name and verified_script_execution, calls the create API; a Go
error becomes `diag.FromErr`; response errors become one Error diagnostic each
and are returned without touching the state; otherwise the ID is set to the
GUID and domain_id, key, location_id, guid are set from the response. -/
def resourceNewRelicSyntheticsPrivateLocationCreate
    (client : SyntheticsClient) (accountID : Int) (d : ResourceData) :
    Diagnostics × ResourceData :=
  match client.SyntheticsCreatePrivateLocation accountID d.description d.name
      d.verified_script_execution with
  | Except.error err => (diag.FromErr err, d)
  | Except.ok res =>
      let diags : Diagnostics :=
        if res.Errors.length > 0 then
          res.Errors.map fun err =>
            { Severity := Severity.Error, Summary := err.Description }
        else []
      if diags.length > 0 then (diags, d)
      else
        ([], { d with
                id := res.GUID
                domain_id := res.DomainId
                key := res.Key
                location_id := res.LocationId
                guid := res.GUID })

/-- Helper `setCommonSyntheticsPrivateLocationAttributes`: on a
`GenericEntityOutline` sets guid and name from the entity; any other entity
kind leaves the state untouched. -/
def setCommonSyntheticsPrivateLocationAttributes
    (v : EntityInterface) (d : ResourceData) : ResourceData :=
  match v with
  | EntityInterface.GenericEntityOutline g n => { d with guid := g, name := n }
  | EntityInterface.OtherEntity => d

/-- Read handler `resourceNewRelicSyntheticsPrivateLocationRead`: looks the
entity up by the state ID; a NotFound error clears the ID and returns nil;
any other error becomes `diag.FromErr`; on success the common attributes are
set. -/
def resourceNewRelicSyntheticsPrivateLocationRead
    (getEntity : String → Except GoReadError EntityInterface)
    (d : ResourceData) : Diagnostics × ResourceData :=
  match getEntity d.id with
  | Except.error GoReadError.NotFound => ([], { d with id := "" })
  | Except.error (GoReadError.Other m) => (diag.FromErr m, d)
  | Except.ok resp => ([], setCommonSyntheticsPrivateLocationAttributes resp d)

/-- Update handler `resourceNewRelicSyntheticsPrivateLocationUpdate`: reads
description, the ID and verified_script_execution, calls the update API; a Go
error becomes `diag.FromErr`; response errors become one Error diagnostic
each; the state is never modified. -/
def resourceNewRelicSyntheticsPrivateLocationUpdate
    (client : SyntheticsClient) (d : ResourceData) :
    Diagnostics × ResourceData :=
  match client.SyntheticsUpdatePrivateLocation d.description d.id
      d.verified_script_execution with
  | Except.error err => (diag.FromErr err, d)
  | Except.ok res =>
      let diags : Diagnostics :=
        if res.Errors.length > 0 then
          res.Errors.map fun err =>
            { Severity := Severity.Error, Summary := err.Description }
        else []
      if diags.length > 0 then (diags, d)
      else ([], d)

/-- Delete handler `resourceNewRelicSyntheticsPrivateLocationDelete`: calls the
delete API with the state ID; a Go error becomes `diag.FromErr`; response
errors (when the response is non-nil) become one Error diagnostic each; on the
clean path the ID is cleared. -/
def resourceNewRelicSyntheticsPrivateLocationDelete
    (client : SyntheticsClient) (d : ResourceData) :
    Diagnostics × ResourceData :=
  match client.SyntheticsDeletePrivateLocation d.id with
  | Except.error err => (diag.FromErr err, d)
  | Except.ok res =>
      let diags : Diagnostics :=
        match res with
        | some r =>
            r.Errors.map fun err =>
              { Severity := Severity.Error, Summary := err.Description }
        | none => []
      if diags.length > 0 then (diags, d)
      else ([], { d with id := "" })

/-- Terraform SDK `schema.ImportStatePassthroughContext`: the pass-through
StateContext used for import, which returns the incoming state unchanged and
no error. Modelled from the SDK (an external collaborator of this
repository). -/
def schema.ImportStatePassthroughContext
    (d : ResourceData) : List ResourceData × Option String :=
  ([d], none)

/-- Terraform SDK `schema.ResourceImporter`: carries the import StateContext. -/
structure ResourceImporter where
  StateContext : ResourceData → List ResourceData × Option String

/-- A schema value type (`schema.ValueType`). -/
inductive ValueType
  | TypeInt
  | TypeString
  | TypeBool
  deriving DecidableEq, Repr

/-- A schema attribute declaration (`schema.Schema`): value type, flags and
description. -/
structure SchemaAttr where
  typ : ValueType
  Required : Bool := false
  Optional : Bool := false
  Computed : Bool := false
  ForceNew : Bool := false
  Description : String := ""
  deriving DecidableEq, Repr

/-- A Terraform resource definition (`schema.Resource`): the CRUD handlers,
the importer and the attribute schema, with the handlers carrying their
external collaborators (API client, entity lookup) as explicit arguments. -/
structure Resource where
  CreateContext : SyntheticsClient → Int → ResourceData → Diagnostics × ResourceData
  ReadContext :
    (String → Except GoReadError EntityInterface) → ResourceData →
      Diagnostics × ResourceData
  UpdateContext : SyntheticsClient → ResourceData → Diagnostics × ResourceData
  DeleteContext : SyntheticsClient → ResourceData → Diagnostics × ResourceData
  Importer : ResourceImporter
  Schema : List (String × SchemaAttr)

/-- Resource definition `resourceNewRelicSyntheticsPrivateLocation`: binds the
four CRUD handlers, the pass-through importer, and the eight-attribute
schema. -/
def resourceNewRelicSyntheticsPrivateLocation : Resource :=
  { CreateContext := resourceNewRelicSyntheticsPrivateLocationCreate
    ReadContext := resourceNewRelicSyntheticsPrivateLocationRead
    UpdateContext := resourceNewRelicSyntheticsPrivateLocationUpdate
    DeleteContext := resourceNewRelicSyntheticsPrivateLocationDelete
    Importer := { StateContext := schema.ImportStatePassthroughContext }
    Schema :=
      [("account_id",
        { typ := ValueType.TypeInt, Optional := true, Computed := true
          Description := "The ID of the account in New Relic." }),
       ("description",
        { typ := ValueType.TypeString, Required := true
          Description := "The private location description." }),
       ("name",
        { typ := ValueType.TypeString, ForceNew := true, Required := true
          Description := "The name of the private location." }),
       ("verified_script_execution",
        { typ := ValueType.TypeBool, Required := true
          Description :=
            "The private location requires a password to edit if value is true." }),
       ("domain_id",
        { typ := ValueType.TypeString, Optional := true
          Description := "The private location globally unique identifier." }),
       ("guid",
        { typ := ValueType.TypeString, Optional := true
          Description := "The guid of the entity to tag." }),
       ("key",
        { typ := ValueType.TypeString, Optional := true
          Description := "The private locations key." }),
       ("location_id",
        { typ := ValueType.TypeString, Optional := true
          Description := "An alternate identifier based on name." })] }

/-- Configuration of the HTTP client (`config.Config`): the static API keys. -/
structure Config where
  PersonalAPIKey : String
  AdminAPIKey : String
  InsightsInsertKey : String
  deriving DecidableEq, Repr

/-- An HTTP request, reduced to its header map: a list of header name/value
pairs with at most one entry per name. -/
abbrev Request := List (String × String)

/-- The `SetHeader` method of a request: replaces the value of an existing
header of that name, or appends the header. -/
def SetHeader : Request → String → String → Request
  | [], k, v => [(k, v)]
  | (k0, v0) :: rest, k, v =>
      if k0 = k then (k, v) :: rest else (k0, v0) :: SetHeader rest k v

/-- Header lookup on a request: the value of the first header of that name. -/
def headerGet : Request → String → Option String
  | [], _ => none
  | (k0, v0) :: rest, k => if k0 = k then some v0 else headerGet rest k

/-- `NerdGraphAuthorizer.AuthorizeRequest`: sets Api-Key to the personal API
key. -/
def NerdGraphAuthorizer.AuthorizeRequest (r : Request) (c : Config) : Request :=
  SetHeader r "Api-Key" c.PersonalAPIKey

/-- `PersonalAPIKeyCapableV2Authorizer.AuthorizeRequest`: with a non-empty
personal API key sets Api-Key to it and Auth-Type to User-Api-Key, otherwise
sets X-Api-Key to the admin API key. -/
def PersonalAPIKeyCapableV2Authorizer.AuthorizeRequest
    (r : Request) (c : Config) : Request :=
  if c.PersonalAPIKey ≠ "" then
    SetHeader (SetHeader r "Api-Key" c.PersonalAPIKey) "Auth-Type" "User-Api-Key"
  else
    SetHeader r "X-Api-Key" c.AdminAPIKey

/-- `ClassicV2Authorizer.AuthorizeRequest`: sets X-Api-Key to the admin API
key. -/
def ClassicV2Authorizer.AuthorizeRequest (r : Request) (c : Config) : Request :=
  SetHeader r "X-Api-Key" c.AdminAPIKey

/-- `InsightsInsertKeyAuthorizer.AuthorizeRequest`: sets X-Insert-Key to the
insights insert key. -/
def InsightsInsertKeyAuthorizer.AuthorizeRequest
    (r : Request) (c : Config) : Request :=
  SetHeader r "X-Insert-Key" c.InsightsInsertKey

/-- A data partition rule, as configured by the acceptance tests: the flat
attribute record of the `newrelic_data_partition_rule` resource blocks. -/
structure DataPartitionRule where
  account_id : Int
  description : String
  enabled : Bool
  attribute_name : String
  matching_expression : String
  matching_method : String
  retention_policy : String
  target_data_partition : String
  deriving DecidableEq, Repr

/-- The resource block declared by `testAccNewRelicDataPartitionRuleConfig`:
one rule with target `Log_Test_<name>`. -/
def testAccNewRelicDataPartitionRuleConfig
    (testAccountID : Int) (name appName : String) : DataPartitionRule :=
  { account_id := testAccountID
    description := appName
    enabled := true
    attribute_name := "hostname"
    matching_expression := "localhost"
    matching_method := "EQUALS"
    retention_policy := "SECONDARY"
    target_data_partition := "Log_Test_" ++ name }

/-- The two resource blocks (foo, then bar) declared by
`testAccNewRelicDataPartitionRule_ValidateName`: identical rules, both with
target `Log_Test_<name>`. -/
def testAccNewRelicDataPartitionRule_ValidateName
    (testAccountID : Int) (name appName : String) : List DataPartitionRule :=
  [{ account_id := testAccountID
     description := appName
     enabled := true
     attribute_name := "hostname"
     matching_expression := "localhost"
     matching_method := "EQUALS"
     retention_policy := "SECONDARY"
     target_data_partition := "Log_Test_" ++ name },
   { account_id := testAccountID
     description := appName
     enabled := true
     attribute_name := "hostname"
     matching_expression := "localhost"
     matching_method := "EQUALS"
     retention_policy := "SECONDARY"
     target_data_partition := "Log_Test_" ++ name }]

/-- The remote state of the data partition service: rules keyed by their ID. -/
abbrev DataPartitionRemote := List (String × DataPartitionRule)

/-- Modelled from the spec: creation of a data partition rule by the remote
service (the `newrelic_data_partition_rule` resource implementation is not
under src/, only its acceptance tests are). Per the spec, duplicate names are
rejected with the vendor-specific error code
DUPLICATE_DATA_PARTITION_RULE_NAME; otherwise the rule is stored under a new
ID. -/
def createDataPartitionRule (remote : DataPartitionRemote) (id : String)
    (r : DataPartitionRule) : Except String DataPartitionRemote :=
  if remote.any fun p => p.2.target_data_partition = r.target_data_partition
  then Except.error "DUPLICATE_DATA_PARTITION_RULE_NAME"
  else Except.ok ((id, r) :: remote)

/-- Modelled from the spec: `getDataPartitionByID` (its definition is not under
src/, only its callers in the acceptance tests are) looks a data partition
rule up by ID on the remote service, returning a Go error when no rule with
that ID exists. -/
def getDataPartitionByID (remote : DataPartitionRemote) (id : String) :
    Except String DataPartitionRule :=
  match remote with
  | [] => Except.error ("no data partition rule found with the given id " ++ id)
  | (id0, r) :: rest =>
      if id0 = id then Except.ok r else getDataPartitionByID rest id

/-- A resource entry of the Terraform state, as the destroy check reads it:
`rs.Type` and `rs.Primary.ID`. -/
structure TerraformStateResource where
  rsType : String
  primaryID : String
  deriving DecidableEq, Repr

/-- Destroy check `testAccCheckNewRelicDataPartitionRuleDestroy`: walks the
state resources, skips entries whose type is not
`newrelic_data_partition_rule`, calls `getDataPartitionByID` on each remaining
entry and returns the Go-style error "data partition rule still exists: ..."
as soon as a lookup returns an error; returns nil (none) otherwise. -/
def testAccCheckNewRelicDataPartitionRuleDestroy
    (getByID : String → Except String DataPartitionRule)
    (resources : List TerraformStateResource) : Option String :=
  match resources with
  | [] => none
  | rs :: rest =>
      if rs.rsType ≠ "newrelic_data_partition_rule" then
        testAccCheckNewRelicDataPartitionRuleDestroy getByID rest
      else
        match getByID rs.primaryID with
        | Except.error e => some ("data partition rule still exists: " ++ e)
        | Except.ok _ =>
            testAccCheckNewRelicDataPartitionRuleDestroy getByID rest

/-- A concrete resource state used to instantiate witnesses. -/
def sampleResourceData : ResourceData :=
  { id := "GUID-0"
    account_id := 1
    description := "desc"
    name := "loc-name"
    verified_script_execution := true
    domain_id := "dom"
    guid := "g"
    key := "k"
    location_id := "lid" }

/-- A synthetics client whose every call fails with the Go error "boom". -/
def errClient : SyntheticsClient :=
  { SyntheticsCreatePrivateLocation := fun _ _ _ _ => Except.error "boom"
    SyntheticsUpdatePrivateLocation := fun _ _ _ => Except.error "boom"
    SyntheticsDeletePrivateLocation := fun _ => Except.error "boom" }

/-- An entity lookup that fails with a non-NotFound Go error "oops". -/
def errGetEntity : String → Except GoReadError EntityInterface :=
  fun _ => Except.error (GoReadError.Other "oops")

/-- A synthetics client whose create call succeeds with no response errors and
returns GUID NEWGUID and identifiers D, K, L. -/
def okCreateClient : SyntheticsClient :=
  { SyntheticsCreatePrivateLocation := fun _ _ _ _ =>
      Except.ok { Errors := [], GUID := "NEWGUID", DomainId := "D", Key := "K"
                  LocationId := "L" }
    SyntheticsUpdatePrivateLocation := fun _ _ _ => Except.error "unused"
    SyntheticsDeletePrivateLocation := fun _ => Except.error "unused" }

/-- Header lookup after SetHeader: the set header reads back as the new value,
every other header is unchanged. -/
theorem headerGet_SetHeader (r : Request) (k v k2 : String) :
    headerGet (SetHeader r k v) k2 =
      if k2 = k then some v else headerGet r k2 := by
  induction r with
  | nil =>
      by_cases h : k2 = k
      · simp [SetHeader, headerGet, h]
      · simp [SetHeader, headerGet, h, Ne.symm h]
  | cons p rest ih =>
      obtain ⟨k0, v0⟩ := p
      by_cases h0 : k0 = k
      · subst h0
        by_cases h2 : k2 = k0
        · simp [SetHeader, headerGet, h2]
        · simp [SetHeader, headerGet, h2, Ne.symm h2]
      · by_cases h2 : k0 = k2
        · subst h2
          simp [SetHeader, headerGet, h0]
        · simp [SetHeader, headerGet, h0, h2, ih]

/-- Update handler leaves the state record untouched on every outcome. -/
theorem update_preserves_state (client : SyntheticsClient) (d : ResourceData) :
    (resourceNewRelicSyntheticsPrivateLocationUpdate client d).2 = d := by
  unfold resourceNewRelicSyntheticsPrivateLocationUpdate
  cases client.SyntheticsUpdatePrivateLocation d.description d.id
      d.verified_script_execution with
  | error e => rfl
  | ok res => dsimp only; split <;> split <;> rfl

/-- C1: for every lifecycle operation of the synthetics private location
resource (Create, Update, Delete, and Read outside the not-found case), if the
underlying API client call returns a Go error, the operation returns the
non-empty diagnostics value wrapping that error via diag.FromErr. -/
theorem c1_client_errors_become_diagnostics
    (client : SyntheticsClient)
    (getEntity : String → Except GoReadError EntityInterface)
    (accountID : Int) (d : ResourceData) (e m : String)
    (hc : client.SyntheticsCreatePrivateLocation accountID d.description d.name
        d.verified_script_execution = Except.error e)
    (hu : client.SyntheticsUpdatePrivateLocation d.description d.id
        d.verified_script_execution = Except.error e)
    (hd : client.SyntheticsDeletePrivateLocation d.id = Except.error e)
    (hr : getEntity d.id = Except.error (GoReadError.Other m)) :
    (resourceNewRelicSyntheticsPrivateLocationCreate client accountID d).1 =
        diag.FromErr e ∧
    (resourceNewRelicSyntheticsPrivateLocationUpdate client d).1 =
        diag.FromErr e ∧
    (resourceNewRelicSyntheticsPrivateLocationDelete client d).1 =
        diag.FromErr e ∧
    (resourceNewRelicSyntheticsPrivateLocationRead getEntity d).1 =
        diag.FromErr m ∧
    diag.FromErr e ≠ [] ∧ diag.FromErr m ≠ [] := by
  refine ⟨?_, ?_, ?_, ?_, by simp [diag.FromErr], by simp [diag.FromErr]⟩
  · simp [resourceNewRelicSyntheticsPrivateLocationCreate, hc]
  · simp [resourceNewRelicSyntheticsPrivateLocationUpdate, hu]
  · simp [resourceNewRelicSyntheticsPrivateLocationDelete, hd]
  · simp [resourceNewRelicSyntheticsPrivateLocationRead, hr]

/-- Witness for C1: with a client whose calls all fail with "boom" and an
entity lookup failing with a non-NotFound error, Create surfaces the wrapped
error. -/
theorem c1_client_errors_become_diagnostics_witness :
    (resourceNewRelicSyntheticsPrivateLocationCreate errClient 1
        sampleResourceData).1 = diag.FromErr "boom" :=
  (c1_client_errors_become_diagnostics errClient errGetEntity 1
      sampleResourceData "boom" "oops" rfl rfl rfl rfl).1

/-- C2: a create whose response carries errors returns exactly one
Error-severity diagnostic per response error, with the description as summary,
and leaves the whole state (ID and all attributes) unchanged; a create whose
response carries no errors sets the ID to the returned GUID and sets
domain_id, key, location_id and guid from the response. -/
theorem c2_create_response_errors_and_success
    (client : SyntheticsClient) (accountID : Int) (d : ResourceData)
    (res : PrivateLocationMutationResult)
    (h : client.SyntheticsCreatePrivateLocation accountID d.description d.name
        d.verified_script_execution = Except.ok res) :
    (res.Errors ≠ [] →
      resourceNewRelicSyntheticsPrivateLocationCreate client accountID d =
        (res.Errors.map fun err =>
          { Severity := Severity.Error, Summary := err.Description }, d)) ∧
    (res.Errors = [] →
      resourceNewRelicSyntheticsPrivateLocationCreate client accountID d =
        ([], { d with
                id := res.GUID
                domain_id := res.DomainId
                key := res.Key
                location_id := res.LocationId
                guid := res.GUID })) := by
  constructor
  · intro hne
    have hlen : 0 < res.Errors.length := List.length_pos.mpr hne
    simp [resourceNewRelicSyntheticsPrivateLocationCreate, h, hlen, hne]
  · intro hnil
    simp [resourceNewRelicSyntheticsPrivateLocationCreate, h, hnil]

/-- Witness for C2: a successful create with no response errors sets the ID
and the four identifier attributes from the response. -/
theorem c2_create_response_errors_and_success_witness :
    resourceNewRelicSyntheticsPrivateLocationCreate okCreateClient 1
        sampleResourceData =
      ([], { sampleResourceData with
              id := "NEWGUID"
              domain_id := "D"
              key := "K"
              location_id := "L"
              guid := "NEWGUID" }) :=
  (c2_create_response_errors_and_success okCreateClient 1 sampleResourceData
      { Errors := [], GUID := "NEWGUID", DomainId := "D", Key := "K"
        LocationId := "L" } rfl).2 rfl

/-- C3: the two data partition rules configured by the duplicate-name
acceptance config share the same target name, the first create succeeds, and
the second create fails with the vendor-specific error code
DUPLICATE_DATA_PARTITION_RULE_NAME. -/
theorem c3_duplicate_target_name_rejected
    (testAccountID : Int) (name appName : String) (id1 id2 : String) :
    ∃ r1 r2 st1,
      testAccNewRelicDataPartitionRule_ValidateName testAccountID name appName =
        [r1, r2] ∧
      r1.target_data_partition = r2.target_data_partition ∧
      createDataPartitionRule [] id1 r1 = Except.ok st1 ∧
      createDataPartitionRule st1 id2 r2 =
        Except.error "DUPLICATE_DATA_PARTITION_RULE_NAME" := by
  refine ⟨_, _, _, rfl, rfl, rfl, ?_⟩
  simp [createDataPartitionRule, testAccNewRelicDataPartitionRule_ValidateName]

/-- C4 counterexample: a successful Read does not set every schema attribute
from the API response — two states that differ only in the key attribute are
read against the same response yet remain different afterwards, so key (like
account_id, description, verified_script_execution, domain_id and
location_id) is not taken from the response. -/
theorem c4_read_does_not_mirror_every_attribute :
    (resourceNewRelicSyntheticsPrivateLocationRead
        (fun _ => Except.ok (EntityInterface.GenericEntityOutline "G" "N"))
        { sampleResourceData with key := "k1" }).2 ≠
    (resourceNewRelicSyntheticsPrivateLocationRead
        (fun _ => Except.ok (EntityInterface.GenericEntityOutline "G" "N"))
        { sampleResourceData with key := "k2" }).2 := by
  decide

/-- C4 (amended): after a successful Read that returns a GenericEntityOutline,
exactly the guid and name attributes are set, from the response GUID and Name;
the resource ID and every other attribute are unchanged, and the diagnostics
are nil. -/
theorem c4_read_sets_guid_and_name_only
    (getEntity : String → Except GoReadError EntityInterface)
    (d : ResourceData) (g n : String)
    (h : getEntity d.id = Except.ok (EntityInterface.GenericEntityOutline g n)) :
    resourceNewRelicSyntheticsPrivateLocationRead getEntity d =
      ([], { d with guid := g, name := n }) := by
  simp [resourceNewRelicSyntheticsPrivateLocationRead, h,
    setCommonSyntheticsPrivateLocationAttributes]

/-- Witness for the amended C4: reading a concrete GenericEntityOutline sets
guid and name only. -/
theorem c4_read_sets_guid_and_name_only_witness :
    resourceNewRelicSyntheticsPrivateLocationRead
        (fun _ => Except.ok (EntityInterface.GenericEntityOutline "G" "N"))
        sampleResourceData =
      ([], { sampleResourceData with guid := "G", name := "N" }) :=
  c4_read_sets_guid_and_name_only
    (fun _ => Except.ok (EntityInterface.GenericEntityOutline "G" "N"))
    sampleResourceData "G" "N" rfl

/-- C5: the destroy check of the data partition acceptance suite is inverted —
with one data partition rule in the state whose remote lookup fails (the rule
no longer exists), the check returns the "still exists" error, and with the
rule still present remotely (lookup succeeds) it returns nil. -/
theorem c5_destroy_check_inverted :
    testAccCheckNewRelicDataPartitionRuleDestroy
        (getDataPartitionByID [])
        [{ rsType := "newrelic_data_partition_rule", primaryID := "abc" }] =
      some
        "data partition rule still exists: no data partition rule found with the given id abc" ∧
    testAccCheckNewRelicDataPartitionRuleDestroy
        (getDataPartitionByID
          [("abc", testAccNewRelicDataPartitionRuleConfig 1 "x" "app")])
        [{ rsType := "newrelic_data_partition_rule", primaryID := "abc" }] =
      none :=
  ⟨rfl, rfl⟩

/-- C6: each request authorizer sets exactly its own API-key headers from the
config and leaves every other header of the request unchanged: NerdGraph sets
Api-Key to the personal key; classic V2 sets X-Api-Key to the admin key; the
personal-key-capable V2 authorizer sets Api-Key and Auth-Type User-Api-Key
when the personal key is non-empty, and X-Api-Key to the admin key
otherwise. -/
theorem c6_authorizers_set_exactly_their_headers
    (r : Request) (c : Config) (k : String) :
    headerGet (NerdGraphAuthorizer.AuthorizeRequest r c) k =
      (if k = "Api-Key" then some c.PersonalAPIKey else headerGet r k) ∧
    headerGet (ClassicV2Authorizer.AuthorizeRequest r c) k =
      (if k = "X-Api-Key" then some c.AdminAPIKey else headerGet r k) ∧
    (c.PersonalAPIKey ≠ "" →
      headerGet (PersonalAPIKeyCapableV2Authorizer.AuthorizeRequest r c) k =
        if k = "Auth-Type" then some "User-Api-Key"
        else if k = "Api-Key" then some c.PersonalAPIKey
        else headerGet r k) ∧
    (c.PersonalAPIKey = "" →
      headerGet (PersonalAPIKeyCapableV2Authorizer.AuthorizeRequest r c) k =
        if k = "X-Api-Key" then some c.AdminAPIKey else headerGet r k) := by
  refine ⟨?_, ?_, ?_, ?_⟩
  · simp [NerdGraphAuthorizer.AuthorizeRequest, headerGet_SetHeader]
  · simp [ClassicV2Authorizer.AuthorizeRequest, headerGet_SetHeader]
  · intro h
    simp [PersonalAPIKeyCapableV2Authorizer.AuthorizeRequest, h,
      headerGet_SetHeader]
  · intro h
    simp [PersonalAPIKeyCapableV2Authorizer.AuthorizeRequest, h,
      headerGet_SetHeader]

/-- Witness for C6: with a non-empty personal key the personal-key-capable V2
authorizer sets the Auth-Type header to User-Api-Key. -/
theorem c6_authorizers_set_exactly_their_headers_witness :
    headerGet
        (PersonalAPIKeyCapableV2Authorizer.AuthorizeRequest []
          { PersonalAPIKey := "pk", AdminAPIKey := "ak"
            InsightsInsertKey := "" })
        "Auth-Type" = some "User-Api-Key" := by
  have h :=
    (c6_authorizers_set_exactly_their_headers []
        { PersonalAPIKey := "pk", AdminAPIKey := "ak", InsightsInsertKey := "" }
        "Auth-Type").2.2.1 (by decide)
  simpa using h

/-- C7: the pass-through importer returns the incoming state (same ID)
unchanged with no error, and importing a created data partition rule by its ID
finds exactly the created rule, reproducing the attribute values of the
pre-import state. -/
theorem c7_import_roundtrip
    (d : ResourceData) (remote : DataPartitionRemote) (id : String)
    (r : DataPartitionRule) (st : DataPartitionRemote)
    (hc : createDataPartitionRule remote id r = Except.ok st) :
    schema.ImportStatePassthroughContext d = ([d], none) ∧
    (∀ s ∈ (schema.ImportStatePassthroughContext d).1, s.id = d.id) ∧
    getDataPartitionByID st id = Except.ok r := by
  refine ⟨rfl, by simp [schema.ImportStatePassthroughContext], ?_⟩
  unfold createDataPartitionRule at hc
  split at hc
  · cases hc
  · cases hc
    simp [getDataPartitionByID]

/-- Witness for C7: a rule created into an empty remote state is found again
by its ID. -/
theorem c7_import_roundtrip_witness :
    getDataPartitionByID
        [("abc", testAccNewRelicDataPartitionRuleConfig 1 "x" "app")] "abc" =
      Except.ok (testAccNewRelicDataPartitionRuleConfig 1 "x" "app") :=
  (c7_import_roundtrip sampleResourceData [] "abc"
      (testAccNewRelicDataPartitionRuleConfig 1 "x" "app")
      [("abc", testAccNewRelicDataPartitionRuleConfig 1 "x" "app")] rfl).2.2

/-- C8: the synthetics private location resource definition registers the
fixed CRUD template — its Schema (the eight attributes in order),
CreateContext, ReadContext, UpdateContext, DeleteContext and Importer, each
bound to the corresponding handler. -/
theorem c8_resource_registers_crud_template :
    resourceNewRelicSyntheticsPrivateLocation.CreateContext =
      resourceNewRelicSyntheticsPrivateLocationCreate ∧
    resourceNewRelicSyntheticsPrivateLocation.ReadContext =
      resourceNewRelicSyntheticsPrivateLocationRead ∧
    resourceNewRelicSyntheticsPrivateLocation.UpdateContext =
      resourceNewRelicSyntheticsPrivateLocationUpdate ∧
    resourceNewRelicSyntheticsPrivateLocation.DeleteContext =
      resourceNewRelicSyntheticsPrivateLocationDelete ∧
    resourceNewRelicSyntheticsPrivateLocation.Importer.StateContext =
      schema.ImportStatePassthroughContext ∧
    resourceNewRelicSyntheticsPrivateLocation.Schema.map Prod.fst =
      ["account_id", "description", "name", "verified_script_execution",
       "domain_id", "guid", "key", "location_id"] :=
  ⟨rfl, rfl, rfl, rfl, rfl, rfl⟩

/-- C9: a Read whose entity lookup fails with NotFound clears the resource ID
and returns nil diagnostics, while a lookup failing with any other error
returns that error as a non-empty diagnostics value and leaves the state
unchanged. -/
theorem c9_read_not_found_clears_id
    (getA getB : String → Except GoReadError EntityInterface)
    (d d2 : ResourceData) (m : String)
    (hA : getA d.id = Except.error GoReadError.NotFound)
    (hB : getB d2.id = Except.error (GoReadError.Other m)) :
    resourceNewRelicSyntheticsPrivateLocationRead getA d =
      ([], { d with id := "" }) ∧
    resourceNewRelicSyntheticsPrivateLocationRead getB d2 =
      (diag.FromErr m, d2) ∧
    diag.FromErr m ≠ [] := by
  refine ⟨?_, ?_, by simp [diag.FromErr]⟩
  · simp [resourceNewRelicSyntheticsPrivateLocationRead, hA]
  · simp [resourceNewRelicSyntheticsPrivateLocationRead, hB]

/-- Witness for C9: a NotFound lookup clears the ID of a concrete state and
returns nil diagnostics. -/
theorem c9_read_not_found_clears_id_witness :
    resourceNewRelicSyntheticsPrivateLocationRead
        (fun _ => Except.error GoReadError.NotFound) sampleResourceData =
      ([], { sampleResourceData with id := "" }) :=
  (c9_read_not_found_clears_id
      (fun _ => Except.error GoReadError.NotFound) errGetEntity
      sampleResourceData sampleResourceData "oops" rfl rfl).1

/-- C10: Update never modifies the state — on every outcome the returned state
equals the input state — and its diagnostics depend only on the description,
verified_script_execution and ID of the input state: two states agreeing on
those three produce the same diagnostics under the same client. -/
theorem c10_update_is_state_frame
    (client : SyntheticsClient) (d d2 : ResourceData)
    (hdesc : d.description = d2.description)
    (hvse : d.verified_script_execution = d2.verified_script_execution)
    (hid : d.id = d2.id) :
    (resourceNewRelicSyntheticsPrivateLocationUpdate client d).2 = d ∧
    (resourceNewRelicSyntheticsPrivateLocationUpdate client d2).2 = d2 ∧
    (resourceNewRelicSyntheticsPrivateLocationUpdate client d).1 =
      (resourceNewRelicSyntheticsPrivateLocationUpdate client d2).1 := by
  refine ⟨update_preserves_state client d, update_preserves_state client d2, ?_⟩
  unfold resourceNewRelicSyntheticsPrivateLocationUpdate
  rw [hdesc, hvse, hid]
  cases client.SyntheticsUpdatePrivateLocation d2.description d2.id
      d2.verified_script_execution with
  | error e => rfl
  | ok res =>
      dsimp only
      split <;> split <;> rfl

/-- Witness for C10: two concrete states differing only in attributes Update
does not read yield identical diagnostics, and Update returns its input state
unchanged. -/
theorem c10_update_is_state_frame_witness :
    (resourceNewRelicSyntheticsPrivateLocationUpdate errClient
        sampleResourceData).2 = sampleResourceData ∧
    (resourceNewRelicSyntheticsPrivateLocationUpdate errClient
        { sampleResourceData with key := "other" }).2 =
      { sampleResourceData with key := "other" } ∧
    (resourceNewRelicSyntheticsPrivateLocationUpdate errClient
        sampleResourceData).1 =
      (resourceNewRelicSyntheticsPrivateLocationUpdate errClient
        { sampleResourceData with key := "other" }).1 :=
  c10_update_is_state_frame errClient sampleResourceData
    { sampleResourceData with key := "other" } rfl rfl rfl
